import Mathlib

/-!
Shallow embedding of the steamship agents SDK core: the agent execution
context and caching subsystem (src/steamship/agents/schema/context.py) and
the Telegram / web-widget transport adapters
(src/steamship/agents/mixins/transports/telegram.py,
src/steamship/agents/mixins/transports/steamship_widget.py).

Stateful collaborators (the hosted persistence store behind ChatHistory and
the caches, and the provider HTTP API) are modelled by explicit state
passing over a `Store` value and by abstract status/URL functions supplied
as parameters. Definitions embedding collaborators whose code is not part
of the examined sources carry a doc comment starting with
"Modelled from the spec:".
-/

/-- Context keys identifying one logical conversation: a string-to-string
dictionary, as in the Python `context_keys: Dict[str, str]`. -/
abbrev CtxKeys := List (String × String)

/-- One entry of a conversation's chat history: text plus a role tag. -/
structure ChatMessage where
  text : Option String
  role : String
  deriving DecidableEq, Repr

/-- One persistent conversation log in the external store, with the stable
file id the platform assigned at creation time. -/
structure HistoryLog where
  keys : CtxKeys
  fileId : Nat
  tags : List String
  searchable : Bool
  messages : List ChatMessage
  deriving DecidableEq, Repr

/-- The external persistence collaborator for a single client workspace:
conversation logs plus the per-conversation action-cache and llm-cache
entry maps (fingerprint to serialized result). -/
structure Store where
  nextId : Nat
  logs : List HistoryLog
  actionCaches : List (CtxKeys × List (String × String))
  llmCaches : List (CtxKeys × List (String × String))
  deriving DecidableEq, Repr

/-- Handle to a resolved conversation log. -/
structure ChatHistory where
  fileId : Nat
  keys : CtxKeys
  deriving DecidableEq, Repr

/-- Modelled from the spec: `ChatHistory.get_or_create(client, context_keys,
tags, searchable)` (the ChatHistory class itself is not among the examined
sources) — idempotent resolution to a persistent conversation log: the same
context keys always resolve to the same underlying log; a missing log is
created empty with a fresh stable id. -/
def ChatHistory.get_or_create (store : Store) (keys : CtxKeys)
    (tags : List String) (searchable : Bool) : Store × ChatHistory :=
  match store.logs.find? (fun log => decide (log.keys = keys)) with
  | some log => (store, { fileId := log.fileId, keys := keys })
  | none =>
      ({ store with
          nextId := store.nextId + 1,
          logs := store.logs ++ [{ keys := keys, fileId := store.nextId,
                                   tags := tags, searchable := searchable,
                                   messages := [] }] },
       { fileId := store.nextId, keys := keys })

/-- Modelled from the spec: `append_user_message(text, tags)` — appends a
user-attributed entry to the conversation's log; a durable write, entries
are totally ordered by append sequence. -/
def ChatHistory.append_user_message (store : Store) (h : ChatHistory)
    (text : Option String) : Store :=
  { store with
      logs := store.logs.map (fun log =>
        if log.keys = h.keys then
          { log with messages := log.messages ++ [{ text := text, role := "user" }] }
        else log) }

/-- Handle to a resolved per-conversation action cache. -/
structure ActionCache where
  keys : CtxKeys
  deriving DecidableEq, Repr

/-- Handle to a resolved per-conversation llm cache. -/
structure LLMCache where
  keys : CtxKeys
  deriving DecidableEq, Repr

/-- Modelled from the spec: `ActionCache.get_or_create(client, context_keys)`
(the cache classes are not among the examined sources) — deterministic
get-or-create keyed persistence: repeated calls with the same context keys
resolve to the same cache and do not duplicate storage; a missing cache is
created with no entries. -/
def ActionCache.get_or_create (store : Store) (keys : CtxKeys) : Store × ActionCache :=
  if store.actionCaches.any (fun c => decide (c.1 = keys)) then
    (store, { keys := keys })
  else
    ({ store with actionCaches := store.actionCaches ++ [(keys, [])] },
     { keys := keys })

/-- Modelled from the spec: `LLMCache.get_or_create(client, context_keys)` —
same get-or-create contract as the action cache. -/
def LLMCache.get_or_create (store : Store) (keys : CtxKeys) : Store × LLMCache :=
  if store.llmCaches.any (fun c => decide (c.1 = keys)) then
    (store, { keys := keys })
  else
    ({ store with llmCaches := store.llmCaches ++ [(keys, [])] },
     { keys := keys })

/-- AgentContext (src/steamship/agents/schema/context.py): aggregate of
chat history, optional caches, metadata bag, completed-action records and
emission callbacks (callbacks modelled as opaque labels). -/
structure AgentContext where
  chat_history : ChatHistory
  metadata : List (String × String)
  completed_steps : List String
  emit_funcs : List String
  action_cache : Option ActionCache
  llm_cache : Option LLMCache
  deriving DecidableEq, Repr

/-- AgentContext.id (context.py line 18): the stable id of the underlying
chat-history log. -/
def AgentContext.id (ctx : AgentContext) : Nat :=
  ctx.chat_history.fileId

/-- AgentContext.get_or_create (context.py lines 55-83): resolve the chat
history for the context keys, build a fresh context (whose constructor
initializes empty metadata, completed_steps and emit_funcs), then resolve
the action cache if `use_action_cache` (else leave it None) and the llm
cache if `use_llm_cache` (else None). -/
def AgentContext.get_or_create (store : Store) (context_keys : CtxKeys)
    (tags : List String) (searchable : Bool)
    (use_llm_cache : Bool) (use_action_cache : Bool) : Store × AgentContext :=
  let hist := ChatHistory.get_or_create store context_keys tags searchable
  let ac : Store × Option ActionCache :=
    if use_action_cache then
      let r := ActionCache.get_or_create hist.1 context_keys
      (r.1, some r.2)
    else (hist.1, none)
  let lc : Store × Option LLMCache :=
    if use_llm_cache then
      let r := LLMCache.get_or_create ac.1 context_keys
      (r.1, some r.2)
    else (ac.1, none)
  (lc.1,
   { chat_history := hist.2, metadata := [], completed_steps := [],
     emit_funcs := [], action_cache := ac.2, llm_cache := lc.2 })

/-- Observation of a store: the message entries of the conversation log for
a given key set (empty when no log exists). -/
def Store.historyMessages (s : Store) (k : CtxKeys) : List ChatMessage :=
  match s.logs.find? (fun log => decide (log.keys = k)) with
  | some log => log.messages
  | none => []

/-- Observation of a store: the cached result for a fingerprint in the
action cache of a conversation (none on miss or absent cache). -/
def Store.actionCacheLookup (s : Store) (k : CtxKeys) (f : String) : Option String :=
  match s.actionCaches.find? (fun c => decide (c.1 = k)) with
  | some c => (c.2.find? (fun e => decide (e.1 = f))).map (fun e => e.2)
  | none => none

/-- Observation of a store: the cached result for a fingerprint in the llm
cache of a conversation (none on miss or absent cache). -/
def Store.llmCacheLookup (s : Store) (k : CtxKeys) (f : String) : Option String :=
  match s.llmCaches.find? (fun c => decide (c.1 = k)) with
  | some c => (c.2.find? (fun e => decide (e.1 = f))).map (fun e => e.2)
  | none => none

/-- A JSON scalar as it can appear in a Telegram payload field that the
parser type-checks (`isinstance(x, int)`): either an integer or some other
value such as a string. -/
inductive TVal
  | vint (n : Int)
  | vstr (s : String)
  deriving DecidableEq, Repr

/-- Python str() of a payload scalar. -/
def TVal.str : TVal → String
  | .vint n => toString n
  | .vstr s => s

/-- The `chat` object of a Telegram message payload. -/
structure TChat where
  id : Option TVal
  deriving DecidableEq, Repr

/-- The `voice` or `video_note` object of a Telegram message payload. -/
structure TVoice where
  file_id : Option String
  deriving DecidableEq, Repr

/-- The fields of a Telegram `message` payload that the transport reads. -/
structure TelegramPayload where
  chat : Option TChat
  message_id : Option TVal
  text : Option String
  voice : Option TVoice
  video_note : Option TVoice
  deriving DecidableEq, Repr

/-- Kind of a content block, standing for its mime type tests
(is_text / is_image / is_audio / is_video). -/
inductive BlockKind
  | text
  | image
  | audio
  | video
  | other
  deriving DecidableEq, Repr

/-- A content block: text, optional remote url, chat/message id tags and a
mime kind. -/
structure Block where
  text : Option String
  url : Option String
  chat_id : Option String
  message_id : Option String
  kind : BlockKind
  deriving DecidableEq, Repr

/-- Block.set_chat_id: tags the block with a chat id. -/
def Block.set_chat_id (b : Block) (chatId : String) : Block :=
  { b with chat_id := some chatId }

/-- Block.set_message_id: tags the block with a message id. -/
def Block.set_message_id (b : Block) (messageId : String) : Block :=
  { b with message_id := some messageId }

/-- The distinct SteamshipError raises of TelegramTransport._parse_inbound
(telegram.py lines 149-169). -/
inductive ParseError
  | noChat
  | noChatId
  | badChatId
  | noMessageId
  | badMessageId
  deriving DecidableEq, Repr

/-- TelegramTransport._get_file_url (telegram.py line 137): the remote file
URL for a file id, built from the bot token and the file_path field of the
provider's getFile response (the getFile network call is abstracted as the
`file_path` function). -/
def TelegramTransport.get_file_url (bot_token : String)
    (file_path : String → String) (file_id : String) : String :=
  "https://api.telegram.org/file/bot" ++ bot_token ++ "/" ++ file_path file_id

/-- TelegramTransport._parse_inbound (telegram.py lines 146-191): raise when
chat, chat.id or message_id is missing or chat.id / message_id is not an
int; if the payload has a voice or video_note attachment, return a block
with the payload's text and the resolved remote file URL; otherwise return
a block with the text, or no block at all when there is no text.
`getFileUrl` abstracts the _get_file_url network chain (its argument is the
attachment's file_id, which the code passes along even when absent). -/
def TelegramTransport.parse_inbound (getFileUrl : Option String → String)
    (payload : TelegramPayload) : Except ParseError (Option Block) :=
  match payload.chat with
  | none => .error .noChat
  | some chat =>
    match chat.id with
    | none => .error .noChatId
    | some (.vstr _) => .error .badChatId
    | some (.vint chatId) =>
      match payload.message_id with
      | none => .error .noMessageId
      | some (.vstr _) => .error .badMessageId
      | some (.vint messageId) =>
        match payload.voice.orElse (fun _ => payload.video_note) with
        | some vv =>
          let fileUrl := getFileUrl vv.file_id
          let block : Block :=
            { text := payload.text, url := some fileUrl, chat_id := none,
              message_id := none, kind := .other }
          .ok (some ((block.set_chat_id (toString chatId)).set_message_id
                (toString messageId)))
        | none =>
          match payload.text with
          | some message_text =>
            let result : Block :=
              { text := some message_text, url := none, chat_id := none,
                message_id := none, kind := .text }
            .ok (some ((result.set_chat_id (toString chatId)).set_message_id
                  (toString messageId)))
          | none => .ok none

/-- One outbound provider send request made by TelegramTransport._send:
the chat id it addresses, the text it carries (for sendMessage) and the
kind of API call (sendMessage / sendPhoto / sendAudio / sendVideo). -/
structure SendReq where
  chat_id : Option String
  text : Option String
  kind : BlockKind
  deriving DecidableEq, Repr

/-- TelegramTransport._send (telegram.py lines 95-129), with the provider's
HTTP responses abstracted as a status function over requests. Per block:
a block that is_text() or has truthy text goes to sendMessage with no
status check; else an image/audio/video block goes to the matching media
endpoint and a status other than 200 raises a SteamshipError, abandoning
the rest of the batch; any other kind is logged and dropped. Returns the
requests actually made, in order, and whether an error was raised (with the
chat id of the failing block). -/
def TelegramTransport.send_blocks (status : SendReq → Nat) :
    List Block → List SendReq × Option (Option String)
  | [] => ([], none)
  | b :: rest =>
    if b.kind = .text ∨ b.text.getD "" ≠ "" then
      let req : SendReq := { chat_id := b.chat_id, text := b.text, kind := .text }
      let r := TelegramTransport.send_blocks status rest
      (req :: r.1, r.2)
    else if b.kind = .image ∨ b.kind = .audio ∨ b.kind = .video then
      let req : SendReq := { chat_id := b.chat_id, text := none, kind := b.kind }
      if status req ≠ 200 then ([req], some b.chat_id)
      else
        let r := TelegramTransport.send_blocks status rest
        (req :: r.1, r.2)
    else
      TelegramTransport.send_blocks status rest

/-- TelegramTransport.build_emit_func (telegram.py lines 193-199): the
emission callback registered on the context; it overwrites every block's
chat id with the inbound chat id and hands the batch to the send
mechanism. This definition is the block list that reaches send. -/
def TelegramTransport.build_emit_func (chat_id : String)
    (blocks : List Block) : List Block :=
  blocks.map (fun b => b.set_chat_id chat_id)

/-- The chat id telegram_respond resolves up front from the raw payload
(telegram.py line 207): message.get("chat", ...).get("id"), with no type
check. -/
def TelegramTransport.payload_chat_id (payload : TelegramPayload) : Option TVal :=
  payload.chat.bind (fun c => c.id)

/-- Outcome of a collaborator call that can raise: Python-style success
with a value, or an exception. -/
inductive Outcome (α : Type)
  | ok (val : α)
  | exn
  deriving DecidableEq, Repr

/-- Modelled from the spec: `Transport.response_for_exception(e, chat_id)`
(the Transport base class is not among the examined sources) — a single
user-visible text error block describing the failure, addressed to the
resolved chat id when there is one. -/
def Transport.response_for_exception (chat_id : Option TVal) : Block :=
  { text := some "An error happened while creating a response",
    url := none, chat_id := chat_id.map TVal.str, message_id := none,
    kind := .text }

/-- Everything observable about one telegram_respond invocation: the body
returned to the webhook caller, whether the except branch ran, the user
messages appended to chat history, how many times the agent was run, the
provider sends of the success path and the error blocks sent by the except
branch. -/
structure RespondResult where
  body : String
  raised : Bool
  appends : List (Option String)
  agentRuns : Nat
  sends : List SendReq
  errorBlocks : List Block
  deriving DecidableEq, Repr

/-- TelegramTransport.telegram_respond (telegram.py lines 201-235): extract
chat id from the raw payload, then inside a try block parse the message;
when a block comes back, build the default context (ctxOutcome abstracts
the resolution, which can raise), append the user message, run the agent
(runOutcome abstracts run_agent, which can raise or return an optional
response batch) and send a non-None response through _send; a None parse
result is a no-op. Any exception lands in the except branch, which sends a
single response_for_exception block when a chat id was resolved (a text
send, which _send never status-checks) and swallows the error otherwise.
The endpoint always returns the fixed body "OK". -/
def TelegramTransport.telegram_respond (getFileUrl : Option String → String)
    (status : SendReq → Nat) (ctxOutcome : Outcome Unit)
    (runOutcome : Outcome (Option (List Block)))
    (payload : TelegramPayload) : RespondResult :=
  let chatId := TelegramTransport.payload_chat_id payload
  let failWith : List (Option String) → Nat → List SendReq → RespondResult :=
    fun appends runs sends =>
      if chatId.isSome then
        { body := "OK", raised := true, appends := appends, agentRuns := runs,
          sends := sends,
          errorBlocks := [Transport.response_for_exception chatId] }
      else
        { body := "OK", raised := true, appends := appends, agentRuns := runs,
          sends := sends, errorBlocks := [] }
  match TelegramTransport.parse_inbound getFileUrl payload with
  | .error _ => failWith [] 0 []
  | .ok none =>
      { body := "OK", raised := false, appends := [], agentRuns := 0,
        sends := [], errorBlocks := [] }
  | .ok (some incoming) =>
      match ctxOutcome with
      | .exn => failWith [] 0 []
      | .ok _ =>
          let appends := [incoming.text]
          match runOutcome with
          | .exn => failWith appends 1 []
          | .ok none =>
              { body := "OK", raised := false, appends := appends,
                agentRuns := 1, sends := [], errorBlocks := [] }
          | .ok (some response) =>
              let r := TelegramTransport.send_blocks status response
              match r.2 with
              | some _ => failWith appends 1 r.1
              | none =>
                  { body := "OK", raised := false, appends := appends,
                    agentRuns := 1, sends := r.1, errorBlocks := [] }

/-- The fields of a web widget payload that the transport reads. -/
structure WidgetPayload where
  question : Option String
  chat_session_id : Option String
  deriving DecidableEq, Repr

/-- SteamshipWidgetTransport._parse_inbound (steamship_widget.py lines
40-54): raise when there is no question; the chat id defaults to "default"
and the message id is a fresh uuid (passed in as `freshId`). -/
def SteamshipWidgetTransport.parse_inbound (freshId : String)
    (payload : WidgetPayload) : Except Unit Block :=
  match payload.question with
  | none => .error ()
  | some message_text =>
      let chat_id := payload.chat_session_id.getD "default"
      let result : Block :=
        { text := some message_text, url := none, chat_id := none,
          message_id := none, kind := .text }
      .ok ((result.set_chat_id chat_id).set_message_id freshId)

/-- Modelled from the spec: `AgentService.build_default_context(context_id)`
(the AgentService class is not among the examined sources) — resolves the
agent context for the conversation id via AgentContext.get_or_create,
deriving the context keys deterministically from the id. -/
def AgentService.build_default_context (store : Store) (context_id : String) :
    Store × AgentContext :=
  AgentContext.get_or_create store [("id", context_id)] [] true false false

/-- Behaviour of one run of the agent engine, as the widget transport sees
it: the run either completes after driving the registered emission
callbacks with a sequence of block batches, or raises. -/
inductive RunBehavior
  | emits (batches : List (List Block))
  | exn
  deriving Repr

/-- The ways the answer endpoint itself can fail (propagating a Python
exception to the caller instead of returning blocks). -/
inductive WidgetError
  | malformedPayload
  | attributeUnset
  deriving DecidableEq, Repr

/-- Everything observable about one successful answer invocation: the
updated store, the transport's message_output buffer after the run, the
block list returned, and the conversation id the context was resolved
for. -/
structure AnswerResult where
  store : Store
  message_output : Option (List Block)
  returned : List Block
  contextId : String
  deriving DecidableEq, Repr

/-- SteamshipWidgetTransport.answer (steamship_widget.py lines 56-77):
parse the payload (a parse failure propagates), resolve the default
context for the message's chat id, append the user message to chat
history, set emit_funcs to [save_for_emit] and run the agent: each
emission overwrites the message_output buffer, and an exception during the
run overwrites it with a single response_for_exception block. The endpoint
returns self.message_output, which fails with an AttributeError when the
attribute was never assigned. `message_output` is the buffer's value
before the request (none on a fresh transport instance). -/
def SteamshipWidgetTransport.answer (freshId : String) (run : RunBehavior)
    (store : Store) (message_output : Option (List Block))
    (payload : WidgetPayload) : Except WidgetError AnswerResult :=
  match SteamshipWidgetTransport.parse_inbound freshId payload with
  | .error _ => .error .malformedPayload
  | .ok incoming =>
      let chat_id := (incoming.chat_id).getD "default"
      let ctx := AgentService.build_default_context store chat_id
      let store2 := ChatHistory.append_user_message ctx.1 ctx.2.chat_history
        incoming.text
      let buffer : Option (List Block) :=
        match run with
        | .emits batches => batches.foldl (fun _ b => some b) message_output
        | .exn =>
            some [Transport.response_for_exception (some (.vstr chat_id))]
      match buffer with
      | none => .error .attributeUnset
      | some out =>
          .ok { store := store2, message_output := some out, returned := out,
                contextId := chat_id }

/-- C3: for every client store, context keys and flag pair,
AgentContext.get_or_create returns a context whose action_cache is set iff
use_action_cache, whose llm_cache is set iff use_llm_cache, and whose
metadata bag, completed-actions list and emission-callback list are all
empty. -/
theorem agent_context_cache_flags_and_empty_fields
    (store : Store) (keys : CtxKeys) (tags : List String)
    (searchable use_llm_cache use_action_cache : Bool) :
    ((AgentContext.get_or_create store keys tags searchable use_llm_cache
        use_action_cache).2.action_cache.isSome = use_action_cache) ∧
    ((AgentContext.get_or_create store keys tags searchable use_llm_cache
        use_action_cache).2.llm_cache.isSome = use_llm_cache) ∧
    (AgentContext.get_or_create store keys tags searchable use_llm_cache
        use_action_cache).2.metadata = [] ∧
    (AgentContext.get_or_create store keys tags searchable use_llm_cache
        use_action_cache).2.completed_steps = [] ∧
    (AgentContext.get_or_create store keys tags searchable use_llm_cache
        use_action_cache).2.emit_funcs = [] := by
  cases use_action_cache <;> cases use_llm_cache <;>
    simp [AgentContext.get_or_create, ActionCache.get_or_create,
      LLMCache.get_or_create]

/-- C9: every block handed to the send mechanism by the Telegram
transport's registered emission callback has its chat id overwritten with
the inbound conversation's chat id. -/
theorem telegram_emit_func_overwrites_chat_id (chat_id : String)
    (blocks : List Block) :
    ∀ b ∈ TelegramTransport.build_emit_func chat_id blocks,
      b.chat_id = some chat_id := by
  intro b hb
  simp only [TelegramTransport.build_emit_func, List.mem_map] at hb
  obtain ⟨a, -, rfl⟩ := hb
  rfl

/-- Witness for C9 at a concrete block that carried a different chat id. -/
theorem telegram_emit_func_overwrites_chat_id_witness :
    (Block.set_chat_id
      { text := some "hola", url := none, chat_id := some "999",
        message_id := none, kind := .text } "7").chat_id = some "7" :=
  telegram_emit_func_overwrites_chat_id "7"
    [{ text := some "hola", url := none, chat_id := some "999",
       message_id := none, kind := .text }]
    (Block.set_chat_id
      { text := some "hola", url := none, chat_id := some "999",
        message_id := none, kind := .text } "7")
    (by simp [TelegramTransport.build_emit_func])

/-- C8: the widget answer endpoint on payload question "hello", chat
session "abc", with the agent run emitting one text block "hi there"
through the registered callback, resolves the context for conversation
"abc", appends exactly one user entry "hello" to that conversation's chat
history and returns exactly that block list. -/
theorem widget_answer_end_to_end :
    SteamshipWidgetTransport.answer "uuid-1"
      (.emits [[{ text := some "hi there", url := none, chat_id := none,
                  message_id := none, kind := .text }]])
      { nextId := 0, logs := [], actionCaches := [], llmCaches := [] }
      none
      { question := some "hello", chat_session_id := some "abc" }
    = .ok { store := { nextId := 1,
                       logs := [{ keys := [("id", "abc")], fileId := 0,
                                  tags := [], searchable := true,
                                  messages := [{ text := some "hello",
                                                 role := "user" }] }],
                       actionCaches := [], llmCaches := [] },
            message_output := some [{ text := some "hi there", url := none,
                                      chat_id := none, message_id := none,
                                      kind := .text }],
            returned := [{ text := some "hi there", url := none,
                           chat_id := none, message_id := none,
                           kind := .text }],
            contextId := "abc" } := by
  rfl

/-- C2: parsing a Telegram payload with no chat object or no chat.id
raises a malformed-payload error, and a well-formed payload carrying a
voice (or video_note) attachment with a file id parses to a block whose
text is the payload's text field and whose url is the remote file URL
resolved from that file id. -/
theorem telegram_parse_missing_chat_and_voice_url
    (getFileUrl : Option String → String) (payload : TelegramPayload) :
    (payload.chat = none →
      TelegramTransport.parse_inbound getFileUrl payload = .error .noChat) ∧
    (∀ c, payload.chat = some c → c.id = none →
      TelegramTransport.parse_inbound getFileUrl payload = .error .noChatId) ∧
    (∀ (cid mid : Int) (vv : TVoice) (fid : String),
      payload.chat = some { id := some (.vint cid) } →
      payload.message_id = some (.vint mid) →
      payload.voice.orElse (fun _ => payload.video_note) = some vv →
      vv.file_id = some fid →
      TelegramTransport.parse_inbound getFileUrl payload
        = .ok (some { text := payload.text,
                      url := some (getFileUrl (some fid)),
                      chat_id := some (toString cid),
                      message_id := some (toString mid),
                      kind := .other })) := by
  refine ⟨?_, ?_, ?_⟩
  · intro h
    simp [TelegramTransport.parse_inbound, h]
  · intro c hc hid
    simp [TelegramTransport.parse_inbound, hc, hid]
  · intro cid mid vv fid hc hm hv hf
    simp [TelegramTransport.parse_inbound, hc, hm, hv, hf, Block.set_chat_id,
      Block.set_message_id]

/-- Witness for C2 at a concrete missing-chat payload and a concrete voice
payload, with the file URL resolved through get_file_url. -/
theorem telegram_parse_missing_chat_and_voice_url_witness :
    (TelegramTransport.parse_inbound
        (fun f => TelegramTransport.get_file_url "tok"
          (fun p => p ++ ".oga") (f.getD "-"))
        { chat := none, message_id := none, text := none, voice := none,
          video_note := none }
      = .error .noChat) ∧
    (TelegramTransport.parse_inbound
        (fun f => TelegramTransport.get_file_url "tok"
          (fun p => p ++ ".oga") (f.getD "-"))
        { chat := some { id := some (.vint 5) },
          message_id := some (.vint 9), text := some "note",
          voice := some { file_id := some "F1" }, video_note := none }
      = .ok (some { text := some "note",
                    url := some (TelegramTransport.get_file_url "tok"
                      (fun p => p ++ ".oga") (((some "F1").getD "-"))),
                    chat_id := some (toString (5 : Int)),
                    message_id := some (toString (9 : Int)),
                    kind := .other })) :=
  ⟨(telegram_parse_missing_chat_and_voice_url _ _).1 rfl,
   (telegram_parse_missing_chat_and_voice_url _ _).2.2 5 9
     { file_id := some "F1" } "F1" rfl rfl rfl rfl⟩

/-- C7: a well-formed Telegram payload (integer chat id and message id)
with no text and no voice or video_note attachment parses to no message,
and telegram_respond treats it as a no-op returning "OK": no chat-history
append, no agent run, no send and no error block. -/
theorem telegram_respond_noop_without_text_or_media
    (getFileUrl : Option String → String) (status : SendReq → Nat)
    (ctxOutcome : Outcome Unit) (runOutcome : Outcome (Option (List Block)))
    (payload : TelegramPayload) (cid mid : Int) :
    payload.chat = some { id := some (.vint cid) } →
    payload.message_id = some (.vint mid) →
    payload.text = none → payload.voice = none → payload.video_note = none →
    TelegramTransport.parse_inbound getFileUrl payload = .ok none ∧
    TelegramTransport.telegram_respond getFileUrl status ctxOutcome
        runOutcome payload
      = { body := "OK", raised := false, appends := [], agentRuns := 0,
          sends := [], errorBlocks := [] } := by
  intro hc hm ht hv hvn
  have hp : TelegramTransport.parse_inbound getFileUrl payload = .ok none := by
    simp [TelegramTransport.parse_inbound, hc, hm, ht, hv, hvn, Option.orElse]
  exact ⟨hp, by simp [TelegramTransport.telegram_respond, hp]⟩

/-- Witness for C7 at a concrete group-join-style payload. -/
theorem telegram_respond_noop_without_text_or_media_witness :
    TelegramTransport.parse_inbound (fun _ => "u")
        { chat := some { id := some (.vint 3) },
          message_id := some (.vint 4), text := none, voice := none,
          video_note := none }
      = .ok none ∧
    TelegramTransport.telegram_respond (fun _ => "u") (fun _ => 200)
        (.ok ()) (.ok none)
        { chat := some { id := some (.vint 3) },
          message_id := some (.vint 4), text := none, voice := none,
          video_note := none }
      = { body := "OK", raised := false, appends := [], agentRuns := 0,
          sends := [], errorBlocks := [] } :=
  telegram_respond_noop_without_text_or_media (fun _ => "u") (fun _ => 200)
    (.ok ()) (.ok none)
    { chat := some { id := some (.vint 3) }, message_id := some (.vint 4),
      text := none, voice := none, video_note := none }
    3 4 rfl rfl rfl rfl rfl

/-- C1: telegram_respond always returns the fixed body "OK", whatever the
parse, context resolution, agent run or send did; when the except branch
runs and a chat id was resolved from the payload exactly one error block
is sent, addressed to that chat id, and when no chat id was resolved (or
nothing was raised) no error block is sent. -/
theorem telegram_respond_fail_open
    (getFileUrl : Option String → String) (status : SendReq → Nat)
    (ctxOutcome : Outcome Unit) (runOutcome : Outcome (Option (List Block)))
    (payload : TelegramPayload) :
    (TelegramTransport.telegram_respond getFileUrl status ctxOutcome
      runOutcome payload).body = "OK" ∧
    ((TelegramTransport.telegram_respond getFileUrl status ctxOutcome
        runOutcome payload).raised = true →
      ∀ v, TelegramTransport.payload_chat_id payload = some v →
      (TelegramTransport.telegram_respond getFileUrl status ctxOutcome
        runOutcome payload).errorBlocks
        = [Transport.response_for_exception (some v)]) ∧
    (TelegramTransport.payload_chat_id payload = none →
      (TelegramTransport.telegram_respond getFileUrl status ctxOutcome
        runOutcome payload).errorBlocks = []) ∧
    ((TelegramTransport.telegram_respond getFileUrl status ctxOutcome
        runOutcome payload).raised = false →
      (TelegramTransport.telegram_respond getFileUrl status ctxOutcome
        runOutcome payload).errorBlocks = []) ∧
    (∀ b ∈ (TelegramTransport.telegram_respond getFileUrl status ctxOutcome
        runOutcome payload).errorBlocks,
      b.chat_id = (TelegramTransport.payload_chat_id payload).map TVal.str) := by
  rcases hcv : TelegramTransport.payload_chat_id payload with _ | v <;>
    rcases hp : TelegramTransport.parse_inbound getFileUrl payload with e | ob
  · simp_all [TelegramTransport.telegram_respond]
  · rcases ob with _ | b
    · simp_all [TelegramTransport.telegram_respond]
    · rcases ctxOutcome with u | _
      · rcases runOutcome with resp | _
        · rcases resp with _ | response
          · simp_all [TelegramTransport.telegram_respond]
          · rcases hsr : (TelegramTransport.send_blocks status response).2
                with _ | err
            · simp_all [TelegramTransport.telegram_respond]
            · simp_all [TelegramTransport.telegram_respond]
        · simp_all [TelegramTransport.telegram_respond]
      · simp_all [TelegramTransport.telegram_respond]
  · simp_all [TelegramTransport.telegram_respond,
      Transport.response_for_exception]
  · rcases ob with _ | b
    · simp_all [TelegramTransport.telegram_respond]
    · rcases ctxOutcome with u | _
      · rcases runOutcome with resp | _
        · rcases resp with _ | response
          · simp_all [TelegramTransport.telegram_respond]
          · rcases hsr : (TelegramTransport.send_blocks status response).2
                with _ | err
            · simp_all [TelegramTransport.telegram_respond]
            · simp_all [TelegramTransport.telegram_respond,
                Transport.response_for_exception]
        · simp_all [TelegramTransport.telegram_respond,
            Transport.response_for_exception]
      · simp_all [TelegramTransport.telegram_respond,
          Transport.response_for_exception]

/-- Witness for C1 at a concrete payload whose message_id is missing, so
parsing raises while a chat id was resolved: the body is still "OK" and
exactly one error block goes to chat 5. -/
theorem telegram_respond_fail_open_witness :
    (TelegramTransport.telegram_respond (fun _ => "u") (fun _ => 200)
      (.ok ()) (.ok none)
      { chat := some { id := some (.vint 5) }, message_id := none,
        text := some "hello", voice := none, video_note := none }).body
      = "OK" ∧
    (TelegramTransport.telegram_respond (fun _ => "u") (fun _ => 200)
      (.ok ()) (.ok none)
      { chat := some { id := some (.vint 5) }, message_id := none,
        text := some "hello", voice := none, video_note := none }).errorBlocks
      = [Transport.response_for_exception (some (.vint 5))] :=
  ⟨(telegram_respond_fail_open (fun _ => "u") (fun _ => 200) (.ok ())
      (.ok none)
      { chat := some { id := some (.vint 5) }, message_id := none,
        text := some "hello", voice := none, video_note := none }).1,
   (telegram_respond_fail_open (fun _ => "u") (fun _ => 200) (.ok ())
      (.ok none)
      { chat := some { id := some (.vint 5) }, message_id := none,
        text := some "hello", voice := none, video_note := none }).2.1
     (by decide) (.vint 5) rfl⟩

/-- C10: the widget answer endpoint returns whatever sits in the
message_output buffer after the run; when the run completes without
raising and without emitting, that is the previous request's buffered
output, and on a fresh transport instance (buffer never assigned) the
endpoint fails with an attribute error instead of returning an empty
list. -/
theorem widget_answer_returns_stale_buffer (freshId : String) (store : Store)
    (buf : List Block) (question : String) (sid : Option String) :
    ((SteamshipWidgetTransport.answer freshId (.emits []) store (some buf)
        { question := some question, chat_session_id := sid }).toOption.map
      (fun r => r.returned) = some buf) ∧
    (SteamshipWidgetTransport.answer freshId (.emits []) store none
        { question := some question, chat_session_id := sid }
      = .error .attributeUnset) := by
  constructor <;>
    simp [SteamshipWidgetTransport.answer,
      SteamshipWidgetTransport.parse_inbound, Except.toOption]

/-- C6 as stated is false: a text block whose sendMessage call comes back
with status 500 produces a request with a non-success status, yet _send
checks nothing on the text path and raises no error. -/
theorem telegram_send_text_status_unchecked :
    (∃ r ∈ (TelegramTransport.send_blocks (fun _ => 500)
        [{ text := some "hi", url := none, chat_id := some "5",
           message_id := none, kind := .text }]).1,
      (fun (_ : SendReq) => (500 : Nat)) r ≠ 200) ∧
    (TelegramTransport.send_blocks (fun _ => 500)
        [{ text := some "hi", url := none, chat_id := some "5",
           message_id := none, kind := .text }]).2 = none := by
  decide

/-- C6 amended: a non-success provider status raises an error only for
image, audio or video sends (the text path is never status-checked), and
blocks already sent before a failure are not rolled back — the requests of
a successfully sent prefix are always retained in front of whatever the
rest of the batch produced. -/
theorem telegram_send_media_failure_raises_no_rollback
    (status : SendReq → Nat) (b₁ b₂ : List Block) :
    ((TelegramTransport.send_blocks status b₁).2 = none →
      TelegramTransport.send_blocks status (b₁ ++ b₂)
        = ((TelegramTransport.send_blocks status b₁).1
            ++ (TelegramTransport.send_blocks status b₂).1,
           (TelegramTransport.send_blocks status b₂).2)) ∧
    (∀ r, r ∈ (TelegramTransport.send_blocks status b₁).1 →
      (r.kind = .image ∨ r.kind = .audio ∨ r.kind = .video) →
      status r ≠ 200 →
      ((TelegramTransport.send_blocks status b₁).2).isSome = true) := by
  refine ⟨?_, ?_⟩
  · induction b₁ with
    | nil =>
        intro _
        simp [TelegramTransport.send_blocks]
    | cons b rest ih =>
        intro hok
        by_cases ht : b.kind = .text ∨ b.text.getD "" ≠ ""
        · have hok' : (TelegramTransport.send_blocks status rest).2 = none := by
            simpa [TelegramTransport.send_blocks, ht] using hok
          simp [TelegramTransport.send_blocks, ht, ih hok']
        · by_cases hm : b.kind = .image ∨ b.kind = .audio ∨ b.kind = .video
          · by_cases hs :
                status { chat_id := b.chat_id, text := none, kind := b.kind }
                  = 200
            · have hok' : (TelegramTransport.send_blocks status rest).2
                  = none := by
                simpa [TelegramTransport.send_blocks, ht, hm, hs] using hok
              simp [TelegramTransport.send_blocks, ht, hm, hs, ih hok']
            · exfalso
              simp [TelegramTransport.send_blocks, ht, hm, hs] at hok
          · have hok' : (TelegramTransport.send_blocks status rest).2
                = none := by
              simpa [TelegramTransport.send_blocks, ht, hm] using hok
            simp [TelegramTransport.send_blocks, ht, hm, ih hok']
  · induction b₁ with
    | nil =>
        intro r hr
        simp [TelegramTransport.send_blocks] at hr
    | cons b rest ih =>
        intro r hr hmedia hstat
        by_cases ht : b.kind = .text ∨ b.text.getD "" ≠ ""
        · simp only [TelegramTransport.send_blocks, ht, if_pos] at hr ⊢
          rcases List.mem_cons.mp hr with rfl | hr'
          · simp at hmedia
          · exact ih r hr' hmedia hstat
        · by_cases hm : b.kind = .image ∨ b.kind = .audio ∨ b.kind = .video
          · by_cases hs :
                status { chat_id := b.chat_id, text := none, kind := b.kind }
                  = 200
            · simp only [TelegramTransport.send_blocks] at hr ⊢
              simp only [ht, hm, hs] at hr ⊢
              simp at hr ⊢
              rcases hr with rfl | hr'
              · exact absurd hs hstat
              · exact ih r hr' hmedia hstat
            · simp [TelegramTransport.send_blocks, ht, hm, hs]
          · simp only [TelegramTransport.send_blocks, ht, hm] at hr ⊢
            simp at hr ⊢
            exact ih r hr hmedia hstat

/-- Witness for the amended C6: a successful text send followed by an
image send is the concatenation of both requests, and an image send that
comes back 500 raises. -/
theorem telegram_send_media_failure_raises_no_rollback_witness :
    TelegramTransport.send_blocks (fun _ => 200)
        ([{ text := some "hi", url := none, chat_id := some "5",
            message_id := none, kind := .text }]
          ++ [{ text := none, url := none, chat_id := some "5",
                message_id := none, kind := .image }])
      = ((TelegramTransport.send_blocks (fun _ => 200)
            [{ text := some "hi", url := none, chat_id := some "5",
               message_id := none, kind := .text }]).1
          ++ (TelegramTransport.send_blocks (fun _ => 200)
            [{ text := none, url := none, chat_id := some "5",
               message_id := none, kind := .image }]).1,
         (TelegramTransport.send_blocks (fun _ => 200)
            [{ text := none, url := none, chat_id := some "5",
               message_id := none, kind := .image }]).2) ∧
    ((TelegramTransport.send_blocks (fun _ => 500)
        [{ text := none, url := none, chat_id := some "5",
           message_id := none, kind := .image }]).2).isSome = true :=
  ⟨(telegram_send_media_failure_raises_no_rollback (fun _ => 200)
      [{ text := some "hi", url := none, chat_id := some "5",
         message_id := none, kind := .text }]
      [{ text := none, url := none, chat_id := some "5",
         message_id := none, kind := .image }]).1 (by decide),
   (telegram_send_media_failure_raises_no_rollback (fun _ => 500)
      [{ text := none, url := none, chat_id := some "5",
         message_id := none, kind := .image }] []).2
     { chat_id := some "5", text := none, kind := .image }
     (by decide) (by decide) (by decide)⟩

/-- The action-cache resolution step never touches the conversation
logs. -/
theorem action_cache_get_or_create_logs (s : Store) (k : CtxKeys) :
    (ActionCache.get_or_create s k).1.logs = s.logs := by
  unfold ActionCache.get_or_create
  split <;> rfl

/-- The llm-cache resolution step never touches the conversation logs. -/
theorem llm_cache_get_or_create_logs (s : Store) (k : CtxKeys) :
    (LLMCache.get_or_create s k).1.logs = s.logs := by
  unfold LLMCache.get_or_create
  split <;> rfl

/-- After resolving a chat history, the store holds a log for the keys
whose file id is the returned handle's file id. -/
theorem chat_history_find_after_get_or_create (s : Store) (k : CtxKeys)
    (tags : List String) (searchable : Bool) :
    ∃ log, (ChatHistory.get_or_create s k tags searchable).1.logs.find?
        (fun l => decide (l.keys = k)) = some log
      ∧ log.fileId
          = (ChatHistory.get_or_create s k tags searchable).2.fileId := by
  unfold ChatHistory.get_or_create
  cases hf : s.logs.find? (fun l => decide (l.keys = k)) with
  | some log =>
      refine ⟨log, ?_, ?_⟩
      · simpa using hf
      · rfl
  | none =>
      refine ⟨{ keys := k, fileId := s.nextId, tags := tags,
                searchable := searchable, messages := [] }, ?_, ?_⟩
      · simp [List.find?_append, hf]
      · rfl

/-- Resolving a chat history whose log already exists changes nothing and
returns the existing log's file id. -/
theorem chat_history_get_or_create_found (s : Store) (k : CtxKeys)
    (tags : List String) (searchable : Bool) (log : HistoryLog)
    (hf : s.logs.find? (fun l => decide (l.keys = k)) = some log) :
    ChatHistory.get_or_create s k tags searchable
      = (s, { fileId := log.fileId, keys := k }) := by
  unfold ChatHistory.get_or_create
  rw [hf]

/-- The logs after a full context resolution are the logs after its
chat-history step alone. -/
theorem agent_context_get_or_create_logs (s : Store) (k : CtxKeys)
    (tags : List String) (searchable uL uA : Bool) :
    (AgentContext.get_or_create s k tags searchable uL uA).1.logs
      = (ChatHistory.get_or_create s k tags searchable).1.logs := by
  cases uA <;> cases uL <;>
    simp [AgentContext.get_or_create, action_cache_get_or_create_logs,
      llm_cache_get_or_create_logs]

/-- The id of a resolved context is the file id its chat-history step
returned. -/
theorem agent_context_get_or_create_id (s : Store) (k : CtxKeys)
    (tags : List String) (searchable uL uA : Bool) :
    (AgentContext.get_or_create s k tags searchable uL uA).2.id
      = (ChatHistory.get_or_create s k tags searchable).2.fileId := by
  cases uA <;> cases uL <;>
    simp [AgentContext.get_or_create, AgentContext.id]

/-- C4: resolving an agent context twice for the same client store and
context keys yields contexts with the same id (the identity of the
underlying chat-history log), and the second resolution creates no
duplicate log — the log list is unchanged. -/
theorem agent_context_get_or_create_idempotent
    (store : Store) (keys : CtxKeys) (tags : List String)
    (searchable use_llm_cache use_action_cache : Bool) :
    ((AgentContext.get_or_create
        (AgentContext.get_or_create store keys tags searchable use_llm_cache
          use_action_cache).1
        keys tags searchable use_llm_cache use_action_cache).2.id
      = (AgentContext.get_or_create store keys tags searchable use_llm_cache
          use_action_cache).2.id) ∧
    ((AgentContext.get_or_create
        (AgentContext.get_or_create store keys tags searchable use_llm_cache
          use_action_cache).1
        keys tags searchable use_llm_cache use_action_cache).1.logs
      = (AgentContext.get_or_create store keys tags searchable use_llm_cache
          use_action_cache).1.logs) := by
  obtain ⟨log, hfind, hid⟩ :=
    chat_history_find_after_get_or_create store keys tags searchable
  have hfind1 : (AgentContext.get_or_create store keys tags searchable
      use_llm_cache use_action_cache).1.logs.find?
        (fun l => decide (l.keys = keys)) = some log := by
    rw [agent_context_get_or_create_logs]
    exact hfind
  have hsecond := chat_history_get_or_create_found
    (AgentContext.get_or_create store keys tags searchable use_llm_cache
      use_action_cache).1 keys tags searchable log hfind1
  constructor
  · rw [agent_context_get_or_create_id, agent_context_get_or_create_id,
      hsecond]
    exact hid
  · rw [agent_context_get_or_create_logs, hsecond]

/-- Stores with the same logs show the same history messages. -/
theorem store_historyMessages_of_logs_eq (s t : Store) (h : t.logs = s.logs)
    (j : CtxKeys) : t.historyMessages j = s.historyMessages j := by
  simp [Store.historyMessages, h]

/-- Stores with the same action-cache list show the same action-cache
lookups. -/
theorem store_actionCacheLookup_of_eq (s t : Store)
    (h : t.actionCaches = s.actionCaches) (j : CtxKeys) (f : String) :
    t.actionCacheLookup j f = s.actionCacheLookup j f := by
  simp [Store.actionCacheLookup, h]

/-- Stores with the same llm-cache list show the same llm-cache
lookups. -/
theorem store_llmCacheLookup_of_eq (s t : Store)
    (h : t.llmCaches = s.llmCaches) (j : CtxKeys) (f : String) :
    t.llmCacheLookup j f = s.llmCacheLookup j f := by
  simp [Store.llmCacheLookup, h]

/-- The chat-history resolution step never touches the action caches. -/
theorem chat_history_get_or_create_actionCaches (s : Store) (k : CtxKeys)
    (tags : List String) (searchable : Bool) :
    (ChatHistory.get_or_create s k tags searchable).1.actionCaches
      = s.actionCaches := by
  unfold ChatHistory.get_or_create
  cases hf : s.logs.find? (fun l => decide (l.keys = k)) <;> rfl

/-- The chat-history resolution step never touches the llm caches. -/
theorem chat_history_get_or_create_llmCaches (s : Store) (k : CtxKeys)
    (tags : List String) (searchable : Bool) :
    (ChatHistory.get_or_create s k tags searchable).1.llmCaches
      = s.llmCaches := by
  unfold ChatHistory.get_or_create
  cases hf : s.logs.find? (fun l => decide (l.keys = k)) <;> rfl

/-- The action-cache resolution step never touches the llm caches. -/
theorem action_cache_get_or_create_llmCaches (s : Store) (k : CtxKeys) :
    (ActionCache.get_or_create s k).1.llmCaches = s.llmCaches := by
  unfold ActionCache.get_or_create
  split <;> rfl

/-- The llm-cache resolution step never touches the action caches. -/
theorem llm_cache_get_or_create_actionCaches (s : Store) (k : CtxKeys) :
    (LLMCache.get_or_create s k).1.actionCaches = s.actionCaches := by
  unfold LLMCache.get_or_create
  split <;> rfl

/-- Resolving a chat history leaves every conversation's message entries
unchanged (a created log starts empty, which observes the same as an
absent one). -/
theorem chat_history_get_or_create_messages (s : Store) (k : CtxKeys)
    (tags : List String) (searchable : Bool) (j : CtxKeys) :
    ((ChatHistory.get_or_create s k tags searchable).1).historyMessages j
      = s.historyMessages j := by
  unfold ChatHistory.get_or_create Store.historyMessages
  cases hf : s.logs.find? (fun l => decide (l.keys = k)) with
  | some log => rfl
  | none =>
      simp only [List.find?_append]
      cases hfj : s.logs.find? (fun l => decide (l.keys = j)) with
      | some l => simp
      | none =>
          by_cases hjk : j = k
          · subst hjk
            simp [hf] at hfj
            simp [hfj]
          · simp [Ne.symm hjk]

/-- Resolving an action cache leaves every cached action result unchanged
(a created cache starts empty, which observes the same as an absent
one). -/
theorem action_cache_get_or_create_lookup (s : Store) (k : CtxKeys)
    (j : CtxKeys) (f : String) :
    ((ActionCache.get_or_create s k).1).actionCacheLookup j f
      = s.actionCacheLookup j f := by
  unfold ActionCache.get_or_create
  by_cases hany : s.actionCaches.any (fun c => decide (c.1 = k)) = true
  · rw [if_pos hany]
  · rw [if_neg hany]
    unfold Store.actionCacheLookup
    simp only [List.find?_append]
    cases hfj : s.actionCaches.find? (fun c => decide (c.1 = j)) with
    | some c => simp
    | none =>
        by_cases hjk : j = k
        · subst hjk
          simp [hfj]
        · simp [hfj, Ne.symm hjk]

/-- Resolving an llm cache leaves every cached llm result unchanged. -/
theorem llm_cache_get_or_create_lookup (s : Store) (k : CtxKeys)
    (j : CtxKeys) (f : String) :
    ((LLMCache.get_or_create s k).1).llmCacheLookup j f
      = s.llmCacheLookup j f := by
  unfold LLMCache.get_or_create
  by_cases hany : s.llmCaches.any (fun c => decide (c.1 = k)) = true
  · rw [if_pos hany]
  · rw [if_neg hany]
    unfold Store.llmCacheLookup
    simp only [List.find?_append]
    cases hfj : s.llmCaches.find? (fun c => decide (c.1 = j)) with
    | some c => simp
    | none =>
        by_cases hjk : j = k
        · subst hjk
          simp [hfj]
        · simp [hfj, Ne.symm hjk]

/-- C5: AgentContext.get_or_create is pure resolution and aggregation: for
every client store, context keys and flag combination, it leaves every
conversation's chat-history message entries and the contents of both
caches unchanged. -/
theorem agent_context_get_or_create_pure_resolution
    (store : Store) (keys : CtxKeys) (tags : List String)
    (searchable use_llm_cache use_action_cache : Bool)
    (j : CtxKeys) (f : String) :
    ((AgentContext.get_or_create store keys tags searchable use_llm_cache
        use_action_cache).1.historyMessages j = store.historyMessages j) ∧
    ((AgentContext.get_or_create store keys tags searchable use_llm_cache
        use_action_cache).1.actionCacheLookup j f
      = store.actionCacheLookup j f) ∧
    ((AgentContext.get_or_create store keys tags searchable use_llm_cache
        use_action_cache).1.llmCacheLookup j f
      = store.llmCacheLookup j f) := by
  refine ⟨?_, ?_, ?_⟩ <;>
    cases use_action_cache <;> cases use_llm_cache <;>
      simp [AgentContext.get_or_create,
        chat_history_get_or_create_messages,
        action_cache_get_or_create_lookup,
        llm_cache_get_or_create_lookup,
        store_historyMessages_of_logs_eq _ _
          (action_cache_get_or_create_logs _ _),
        store_historyMessages_of_logs_eq _ _
          (llm_cache_get_or_create_logs _ _),
        store_actionCacheLookup_of_eq _ _
          (chat_history_get_or_create_actionCaches _ _ _ _),
        store_actionCacheLookup_of_eq _ _
          (llm_cache_get_or_create_actionCaches _ _),
        store_llmCacheLookup_of_eq _ _
          (chat_history_get_or_create_llmCaches _ _ _ _),
        store_llmCacheLookup_of_eq _ _
          (action_cache_get_or_create_llmCaches _ _)]
